import Mathlib

/- Shallow embedding of the scoring / prediction engine of app.py
   (class AdvancedDiagnosticGUI of the PC diagnostic tool).

   Modelling conventions:
   - Python floats are modelled as rationals (all engine arithmetic is
     exact on rationals; no float-specific behaviour is relied on).
   - Python `round(x, k)` is modelled as half-up decimal rounding; the two
     conventions differ only at exact ties, which no value proved about
     here hits.
   - Each `try ... except` interaction with the telemetry layer (psutil)
     is modelled by the `Provided` sum type: `ok` carries the reading,
     `err` is the exception branch.
   - The source's drive-type string tests (`'SSD' in partition.fstype.upper()`,
     `'nvme' in partition.device.lower()`) are carried as boolean hints on
     the partition reading, computed by the platform layer. -/

namespace PCDiag

/-- Python `round(x)` on a rational, half-up convention. -/
def pyRound (q : ℚ) : ℤ := ⌊q + 1/2⌋

/-- Python `round(x, 1)`. -/
def pyRound1 (q : ℚ) : ℚ := (pyRound (10 * q) : ℚ) / 10

/-- Python `round(x, 2)`. -/
def pyRound2 (q : ℚ) : ℚ := (pyRound (100 * q) : ℚ) / 100

/-- Python `f"{q:.1f}"` for the non-negative, one-decimal values the
    engine formats (every formatted value was already rounded to one
    decimal or is integral). -/
def fmt1 (q : ℚ) : String :=
  let n := pyRound (10 * q)
  toString (n / 10) ++ "." ++ toString (n % 10)

/-- Python `f"{n}"` for an integral quantity stored as a rational. -/
def fmtInt (q : ℚ) : String := toString ⌊q⌋

/-- Outcome of one telemetry acquisition: the value, or the
    `except Exception` branch. -/
inductive Provided (α : Type) where
  | ok : α → Provided α
  | err : Provided α
  deriving DecidableEq, Repr

/-- psutil.sensors_battery() reading (when a battery object is returned). -/
structure BatteryReading where
  percent : ℚ
  plugged : Bool
  secsleft : Option ℤ
  deriving DecidableEq, Repr

/-- psutil.virtual_memory() reading (bytes and percent). -/
structure MemoryReading where
  total : ℚ
  available : ℚ
  percent : ℚ
  deriving DecidableEq, Repr

/-- One psutil.disk_partitions() entry together with its disk_usage numbers.
    `fstypeSSD` is the platform layer's result of the source test
    `'SSD' in partition.fstype.upper()`; `deviceNvme` of
    `'nvme' in partition.device.lower()`. -/
structure PartitionReading where
  device : String
  mountpoint : String
  fstype : String
  fstypeSSD : Bool
  deviceNvme : Bool
  total : ℚ
  used : ℚ
  deriving DecidableEq, Repr

/-- Per-partition access outcome: the inner `try` catches PermissionError
    and skips the partition. -/
inductive PartAccess where
  | ok : PartitionReading → PartAccess
  | denied : PartAccess
  deriving DecidableEq, Repr

/-- One temperature sensor entry from psutil.sensors_temperatures(). -/
structure SensorReading where
  name : String
  label : String
  current : ℚ
  high : Option ℚ
  critical : Option ℚ
  deriving DecidableEq, Repr

/-- CPU reading from psutil.cpu_percent / cpu_freq / cpu_count. -/
structure CpuReading where
  percent : ℚ
  freq : Option ℚ
  cores : ℕ
  deriving DecidableEq, Repr

/-- Memory score band chain of check_memory_health (app.py lines 363-370). -/
def memScore (usage_percent : ℚ) : ℚ :=
  if usage_percent > 90 then 30
  else if usage_percent > 80 then 60
  else if usage_percent > 70 then 80
  else 95

/-- Memory age heuristic from total capacity (app.py lines 374-379). -/
def memAgeYears (total_gb : ℚ) : ℚ :=
  if total_gb ≥ 16 then 2 else if total_gb ≥ 8 then 4 else 6

/-- Storage score band chain of check_storage_health (app.py lines 415-422). -/
def storageScore (used_percent : ℚ) : ℚ :=
  if used_percent > 95 then 20
  else if used_percent > 85 then 50
  else if used_percent > 70 then 75
  else 90

/-- Storage age / typical-lifespan heuristic (app.py lines 426-431):
    capacity decides the age, the fstype SSD hint decides the lifespan. -/
def storageAgeLifespan (size_gb : ℚ) (fstypeSSD : Bool) : ℚ × ℚ :=
  if size_gb > 1000 then (2, if fstypeSSD then 8 else 5)
  else (4, if fstypeSSD then 10 else 6)

/-- Temperature score band chain of check_temperatures (app.py lines 471-478). -/
def tempScore (current : ℚ) : ℚ :=
  if current > 80 then 20
  else if current > 70 then 50
  else if current > 60 then 75
  else 95

/-- Performance score band chain of check_performance (app.py lines 502-507). -/
def perfScore (cpu_percent : ℚ) : ℚ :=
  if cpu_percent > 90 then 30 else if cpu_percent > 70 then 60 else 90

/-- diagnostic_data['battery'] when a battery is present. -/
structure BatteryData where
  percent : ℚ
  plugged : Bool
  estimated_cycles : ℤ
  health_score : ℚ
  remaining_cycles : ℤ
  estimated_remaining_years : ℚ
  secsleft : Option ℤ
  deriving DecidableEq, Repr

/-- diagnostic_data['battery'] variants: present battery, `present: False`,
    or the error dictionary. -/
inductive BatteryDiag where
  | data : BatteryData → BatteryDiag
  | absent : BatteryDiag
  | error : BatteryDiag
  deriving DecidableEq, Repr

/-- diagnostic_data['memory'] variants. -/
structure MemoryData where
  total_gb : ℚ
  available_gb : ℚ
  used_percent : ℚ
  health_score : ℚ
  estimated_age_years : ℚ
  estimated_remaining_years : ℚ
  deriving DecidableEq, Repr

inductive MemoryDiag where
  | data : MemoryData → MemoryDiag
  | error : MemoryDiag
  deriving DecidableEq, Repr

/-- One storage_data[device] entry. -/
structure StorageEntry where
  device : String
  mountpoint : String
  filesystem : String
  total_gb : ℚ
  used_percent : ℚ
  health_score : ℚ
  estimated_age_years : ℚ
  estimated_remaining_years : ℚ
  drive_type : String
  deriving DecidableEq, Repr

inductive StorageDiag where
  | data : List StorageEntry → StorageDiag
  | error : StorageDiag
  deriving DecidableEq, Repr

/-- One temp_data entry, keyed by `f"{name}_{entry.label}"`. -/
structure TempEntry where
  key : String
  current : ℚ
  high : Option ℚ
  critical : Option ℚ
  health_score : ℚ
  deriving DecidableEq, Repr

inductive TempDiag where
  | data : List TempEntry → TempDiag
  | error : TempDiag
  deriving DecidableEq, Repr

/-- diagnostic_data['performance'] variants. -/
structure PerfData where
  cpu_usage : ℚ
  cpu_frequency : Option ℚ
  cpu_cores : ℕ
  health_score : ℚ
  deriving DecidableEq, Repr

inductive PerfDiag where
  | data : PerfData → PerfDiag
  | error : PerfDiag
  deriving DecidableEq, Repr

/-- check_battery_health (app.py lines 310-350): returns the
    diagnostic_data entry and the health_scores entry. -/
def check_battery_health (input : Provided (Option BatteryReading))
    (uptime_days : ℚ) : BatteryDiag × ℚ :=
  match input with
  | .err => (.error, 50)
  | .ok none => (.absent, 100)
  | .ok (some b) =>
    let estimated_cycles := max 1 (uptime_days / 2)
    let health_score := max 0 (min 100 (100 - estimated_cycles / 10))
    let typical_lifespan_cycles : ℚ := 500
    let remaining_cycles := max 0 (typical_lifespan_cycles - estimated_cycles)
    let remaining_years := remaining_cycles / (365 / 2)
    (.data { percent := b.percent
             plugged := b.plugged
             estimated_cycles := ⌊estimated_cycles⌋
             health_score := pyRound1 health_score
             remaining_cycles := ⌊remaining_cycles⌋
             estimated_remaining_years := pyRound1 remaining_years
             secsleft := b.secsleft },
     health_score)

/-- check_memory_health (app.py lines 352-398). -/
def check_memory_health (input : Provided MemoryReading) : MemoryDiag × ℚ :=
  match input with
  | .err => (.error, 50)
  | .ok m =>
    let usage_percent := m.percent
    let available_gb := m.available / 1024 ^ 3
    let total_gb := m.total / 1024 ^ 3
    let health_score := memScore usage_percent
    let estimated_age_years := memAgeYears total_gb
    let typical_lifespan : ℚ := 10
    let remaining_years := max 0 (typical_lifespan - estimated_age_years)
    (.data { total_gb := pyRound2 total_gb
             available_gb := pyRound2 available_gb
             used_percent := usage_percent
             health_score := health_score
             estimated_age_years := estimated_age_years
             estimated_remaining_years := remaining_years },
     health_score)

/-- Per-partition body of the loop in check_storage_health
    (app.py lines 408-449). -/
def mkStorageEntry (p : PartitionReading) : StorageEntry :=
  let used_percent := p.used / p.total * 100
  let health_score := storageScore used_percent
  let size_gb := p.total / 1024 ^ 3
  let al := storageAgeLifespan size_gb p.fstypeSSD
  let remaining_years := max 0 (al.2 - al.1)
  { device := p.device
    mountpoint := p.mountpoint
    filesystem := p.fstype
    total_gb := pyRound2 size_gb
    used_percent := pyRound2 used_percent
    health_score := health_score
    estimated_age_years := al.1
    estimated_remaining_years := remaining_years
    drive_type := if p.deviceNvme then "SSD" else "HDD" }

/-- Partition loop step: PermissionError (`denied`) does `continue`. -/
def partitionEntry : PartAccess → Option StorageEntry
  | .ok p => some (mkStorageEntry p)
  | .denied => none

/-- check_storage_health (app.py lines 400-456). -/
def check_storage_health (input : Provided (List PartAccess)) :
    StorageDiag × ℚ :=
  match input with
  | .err => (.error, 50)
  | .ok parts =>
    let entries := parts.filterMap partitionEntry
    let total_health := entries.map (·.health_score)
    (.data entries,
     if total_health = [] then 50
     else total_health.sum / total_health.length)

/-- check_temperatures (app.py lines 458-493). -/
def check_temperatures (input : Provided (List SensorReading)) :
    TempDiag × ℚ :=
  match input with
  | .err => (.error, 85)
  | .ok sensors =>
    let entries := sensors.map fun s =>
      { key := s.name ++ "_" ++ s.label
        current := s.current
        high := s.high
        critical := s.critical
        health_score := tempScore s.current : TempEntry }
    let health_scores := entries.map (·.health_score)
    (.data entries,
     if health_scores = [] then 85
     else health_scores.sum / health_scores.length)

/-- check_performance (app.py lines 495-520). -/
def check_performance (input : Provided CpuReading) : PerfDiag × ℚ :=
  match input with
  | .err => (.error, 70)
  | .ok c =>
    let perf_health := perfScore c.percent
    (.data { cpu_usage := c.percent
             cpu_frequency := c.freq
             cpu_cores := c.cores
             health_score := perf_health },
     perf_health)

/-- The health_scores dictionary: one optional score per domain (a key is
    absent when the domain was not selected for the scan). -/
structure HealthScores where
  battery : Option ℚ
  memory : Option ℚ
  storage : Option ℚ
  temperature : Option ℚ
  performance : Option ℚ
  deriving DecidableEq, Repr

/-- The scores actually present, in the fixed domain order. -/
def HealthScores.toList (hs : HealthScores) : List ℚ :=
  hs.battery.toList ++ hs.memory.toList ++ hs.storage.toList ++
    hs.temperature.toList ++ hs.performance.toList

/-- Overall health: `sum(values) / len(values)` guarded by
    `if self.health_scores:` (app.py lines 830-831 and 884-885); an empty
    score set yields no overall value at all. -/
def overallHealth (hs : HealthScores) : Option ℚ :=
  let l := hs.toList
  if l = [] then none else some (l.sum / (l.length : ℚ))

/-- Overall status band (app.py lines 834-841 and 887-898). -/
inductive OverallBand where
  | EXCELLENT | GOOD | FAIR | POOR
  deriving DecidableEq, Repr

def overallBand (m : ℚ) : OverallBand :=
  if m ≥ 85 then .EXCELLENT
  else if m ≥ 70 then .GOOD
  else if m ≥ 50 then .FAIR
  else .POOR

/-- Per-component status band (app.py lines 618-626). -/
inductive StatusBand where
  | GOOD | FAIR | POOR
  deriving DecidableEq, Repr

def componentBand (s : ℚ) : StatusBand :=
  if s ≥ 80 then .GOOD else if s ≥ 60 then .FAIR else .POOR

/-- Failure-risk classification. -/
inductive RiskLevel where
  | LOW | MEDIUM | HIGH
  deriving DecidableEq, Repr

/-- Battery risk chain of generate_predictions (app.py lines 531-538). -/
def batteryRisk (health : ℚ) : RiskLevel :=
  if health < 30 then .HIGH else if health < 60 then .MEDIUM else .LOW

/-- Memory risk chain of generate_predictions (app.py lines 554-559). -/
def memoryRisk (remaining : ℚ) : RiskLevel :=
  if remaining < 1 then .HIGH else if remaining < 3 then .MEDIUM else .LOW

/-- Per-device storage risk chain of generate_predictions
    (app.py lines 576-581). -/
def storageRisk (remaining : ℚ) : RiskLevel :=
  if remaining < 1 then .HIGH else if remaining < 2 then .MEDIUM else .LOW

/-- One self.predictions entry. -/
structure PredictionRecord where
  component : String
  current_age : String
  estimated_lifespan : String
  remaining_life : String
  risk_level : RiskLevel
  deriving DecidableEq, Repr

/-- Battery block of generate_predictions (app.py lines 526-546): a record
    is produced only when the battery entry exists and has `present` truthy. -/
def batteryPredictions (d : Option BatteryDiag) : List PredictionRecord :=
  match d with
  | some (.data bd) =>
    let health := bd.health_score
    let time_to_failure :=
      if health < 30 then "3-6 months"
      else if health < 60 then "6-12 months"
      else fmt1 bd.estimated_remaining_years ++ " years"
    [{ component := "Battery"
       current_age := toString bd.estimated_cycles ++ " cycles"
       estimated_lifespan := "500-1000 cycles"
       remaining_life := time_to_failure
       risk_level := batteryRisk health }]
  | _ => []

/-- Memory block of generate_predictions (app.py lines 548-566): produced
    whenever the memory entry exists, with `.get(..., 0)` defaults on the
    error dictionary. -/
def memoryPredictions (d : Option MemoryDiag) : List PredictionRecord :=
  match d with
  | none => []
  | some md =>
    let ar : ℚ × ℚ :=
      match md with
      | .data m => (m.estimated_age_years, m.estimated_remaining_years)
      | .error => (0, 0)
    [{ component := "Memory (RAM)"
       current_age := fmtInt ar.1 ++ " years"
       estimated_lifespan := "8-10 years"
       remaining_life := fmt1 ar.2 ++ " years"
       risk_level := memoryRisk ar.2 }]

/-- Storage block of generate_predictions (app.py lines 568-588): one
    record per stored entry; the error dictionary contributes none (its
    single item fails the isinstance-dict test). -/
def storagePredictions (d : Option StorageDiag) : List PredictionRecord :=
  match d with
  | some (.data entries) =>
    entries.map fun e =>
      { component := "Storage (" ++ e.device ++ ")"
        current_age := fmtInt e.estimated_age_years ++ " years"
        estimated_lifespan :=
          (if e.drive_type = "SSD" then "8-10" else "5-7") ++ " years"
        remaining_life := fmt1 e.estimated_remaining_years ++ " years"
        risk_level := storageRisk e.estimated_remaining_years }
  | _ => []

/-- Component-selection checkboxes (self.check_vars). -/
structure Selections where
  battery : Bool
  memory : Bool
  storage : Bool
  temperature : Bool
  performance : Bool
  deriving DecidableEq, Repr

/-- One snapshot of everything the telemetry layer hands the engine. -/
structure ScanInput where
  sel : Selections
  battery : Provided (Option BatteryReading)
  uptime_days : ℚ
  memory : Provided MemoryReading
  storage : Provided (List PartAccess)
  temperature : Provided (List SensorReading)
  cpu : Provided CpuReading

/-- diagnostic_data and health_scores after the selected checks ran. -/
structure ScanResult where
  battery_diag : Option BatteryDiag
  memory_diag : Option MemoryDiag
  storage_diag : Option StorageDiag
  temperature_diag : Option TempDiag
  performance_diag : Option PerfDiag
  scores : HealthScores

/-- The selected-domain part of run_diagnostics (app.py lines 226-271):
    each selected domain runs its check, unselected domains leave no entry. -/
def run_checks (i : ScanInput) : ScanResult :=
  let b := if i.sel.battery then some (check_battery_health i.battery i.uptime_days) else none
  let m := if i.sel.memory then some (check_memory_health i.memory) else none
  let s := if i.sel.storage then some (check_storage_health i.storage) else none
  let t := if i.sel.temperature then some (check_temperatures i.temperature) else none
  let p := if i.sel.performance then some (check_performance i.cpu) else none
  { battery_diag := b.map Prod.fst
    memory_diag := m.map Prod.fst
    storage_diag := s.map Prod.fst
    temperature_diag := t.map Prod.fst
    performance_diag := p.map Prod.fst
    scores :=
      { battery := b.map Prod.snd
        memory := m.map Prod.snd
        storage := s.map Prod.snd
        temperature := t.map Prod.snd
        performance := p.map Prod.snd } }

/-- generate_predictions (app.py lines 522-588), in the fixed insertion
    order Battery, Memory, Storage devices. -/
def generate_predictions (r : ScanResult) : List PredictionRecord :=
  batteryPredictions r.battery_diag ++ memoryPredictions r.memory_diag ++
    storagePredictions r.storage_diag

/-- The engine's full per-scan output. -/
structure EngineOutput where
  result : ScanResult
  overall : Option ℚ
  predictions : List PredictionRecord

/-- One full scan: checks, predictions, overall index. -/
def run_diagnostics (i : ScanInput) : EngineOutput :=
  let r := run_checks i
  { result := r
    overall := overallHealth r.scores
    predictions := generate_predictions r }

/- Spec-side definitions, written from the specification's wording, for
   the refinement claims. -/

/-- Spec wording: score by usedPercent band `>90→30, >80→60, >70→80, else→95`. -/
def memScoreSpec (usedPercent : ℚ) : ℚ :=
  if usedPercent > 90 then 30
  else if usedPercent > 80 then 60
  else if usedPercent > 70 then 80
  else 95

/-- Spec wording: `estimatedCycles = max(1, uptimeDays / 2)`. -/
def batteryCyclesSpec (uptimeDays : ℚ) : ℚ := max 1 (uptimeDays / 2)

/-- Spec wording: `score = clamp(100 - estimatedCycles/10, 0, 100)`. -/
def batteryScoreSpec (uptimeDays : ℚ) : ℚ :=
  min 100 (max 0 (100 - batteryCyclesSpec uptimeDays / 10))

/-- Spec wording: `remainingCycles = max(0, 500 - estimatedCycles)`. -/
def batteryRemCyclesSpec (uptimeDays : ℚ) : ℚ :=
  max 0 (500 - batteryCyclesSpec uptimeDays)

/-- Spec wording: `remainingYears = remainingCycles / (365/2)`. -/
def batteryRemYearsSpec (uptimeDays : ℚ) : ℚ :=
  batteryRemCyclesSpec uptimeDays / (365 / 2)

/-- Spec wording: size `>1000GB` → age 2y, else age 4y. -/
def storageAgeSpec (sizeGB : ℚ) : ℚ := if sizeGB > 1000 then 2 else 4

/-- Spec wording: lifespan 8y (solid-state) or 5y for `>1000GB`, else
    10y (solid-state) or 6y. -/
def storageLifespanSpec (sizeGB : ℚ) (solidState : Bool) : ℚ :=
  if sizeGB > 1000 then (if solidState then 8 else 5)
  else (if solidState then 10 else 6)

/-- Spec wording: `remainingYears = max(0, lifespan - age)`. -/
def storageRemainingSpec (sizeGB : ℚ) (solidState : Bool) : ℚ :=
  max 0 (storageLifespanSpec sizeGB solidState - storageAgeSpec sizeGB)

/-- Spec wording: per-reading temperature bands
    `>80→20, >70→50, >60→75, else→95`. -/
def tempScoreSpec (currentC : ℚ) : ℚ :=
  if currentC > 80 then 20
  else if currentC > 70 then 50
  else if currentC > 60 then 75
  else 95

/-- Scores are rationals in the closed interval [0, 100]. -/
def scoreInRange (q : ℚ) : Prop := 0 ≤ q ∧ q ≤ 100

/-- The two readings of the spec's temperature scenario 4. -/
def scenario4Sensors : List SensorReading :=
  [{ name := "coretemp", label := "core0", current := 70, high := none, critical := none },
   { name := "coretemp", label := "core1", current := 82, high := none, critical := none }]

/-- The 1200 GB, 96%-used, solid-state partition of the spec's storage
    scenario 5. -/
def scenario5Partition : PartitionReading :=
  { device := "/dev/nvme0n1p1", mountpoint := "/", fstype := "apfs",
    fstypeSSD := true, deviceNvme := true,
    total := 1200 * 1024 ^ 3, used := 1152 * 1024 ^ 3 }

/- Helper lemmas shared by the claim theorems. -/

/-- The two clamp orders agree. -/
lemma clamp_swap (x : ℚ) : max 0 (min 100 x) = min 100 (max 0 x) := by
  rw [max_min_distrib_left]
  norm_num

lemma memScore_in_range (q : ℚ) : scoreInRange (memScore q) := by
  unfold scoreInRange memScore
  split_ifs <;> norm_num

lemma storageScore_in_range (q : ℚ) : scoreInRange (storageScore q) := by
  unfold scoreInRange storageScore
  split_ifs <;> norm_num

lemma tempScore_in_range (q : ℚ) : scoreInRange (tempScore q) := by
  unfold scoreInRange tempScore
  split_ifs <;> norm_num

lemma perfScore_in_range (q : ℚ) : scoreInRange (perfScore q) := by
  unfold scoreInRange perfScore
  split_ifs <;> norm_num

lemma sum_le_hundred_mul (l : List ℚ) (h : ∀ x ∈ l, x ≤ 100) :
    l.sum ≤ 100 * l.length := by
  induction l with
  | nil => simp
  | cons a t ih =>
    have ha := h a (List.mem_cons_self a t)
    have ht := ih fun x hx => h x (List.mem_cons_of_mem a hx)
    simp only [List.sum_cons, List.length_cons]
    push_cast
    linarith

lemma mean_in_range (l : List ℚ) (h : ∀ x ∈ l, scoreInRange x)
    (hne : l ≠ []) : scoreInRange (l.sum / (l.length : ℚ)) := by
  have hlen : (0 : ℚ) < l.length := by
    have := List.length_pos.mpr hne
    exact_mod_cast this
  have hsum : 0 ≤ l.sum := List.sum_nonneg fun x hx => (h x hx).1
  have hub : l.sum ≤ 100 * l.length :=
    sum_le_hundred_mul l fun x hx => (h x hx).2
  constructor
  · exact div_nonneg hsum (le_of_lt hlen)
  · rw [div_le_iff₀ hlen]
    linarith

/- Claim theorems. -/

/-- C1: for every non-empty set of produced component health scores the
    overall health index is exactly their arithmetic mean, and the overall
    status band is EXCELLENT for mean ≥ 85, GOOD for 70 ≤ mean < 85, FAIR
    for 50 ≤ mean < 70 and POOR below 50. -/
theorem overall_health_mean_and_band (hs : HealthScores)
    (h : hs.toList ≠ []) :
    overallHealth hs = some (hs.toList.sum / (hs.toList.length : ℚ)) ∧
    ∀ m : ℚ,
      (overallBand m = .EXCELLENT ↔ 85 ≤ m) ∧
      (overallBand m = .GOOD ↔ 70 ≤ m ∧ m < 85) ∧
      (overallBand m = .FAIR ↔ 50 ≤ m ∧ m < 70) ∧
      (overallBand m = .POOR ↔ m < 50) := by
  constructor
  · simp [overallHealth, h]
  · intro m
    unfold overallBand
    refine ⟨?_, ?_, ?_, ?_⟩ <;> split_ifs with h1 h2 h3 <;> simp_all <;>
      first
        | linarith
        | (intro hc; linarith)
        | (constructor <;> linarith)

/-- C1 witness: a single produced score of 90 gives mean 90, band EXCELLENT. -/
theorem overall_health_mean_and_band_witness :
    overallHealth ⟨some 90, none, none, none, none⟩ = some 90 ∧
    overallBand 90 = .EXCELLENT := by
  have h := overall_health_mean_and_band ⟨some 90, none, none, none, none⟩
    (by simp [HealthScores.toList])
  refine ⟨?_, ?_⟩
  · rw [h.1]
    norm_num [HealthScores.toList]
  · exact ((h.2 90).1).mpr (by norm_num)

/-- C2: the memory score equals the spec band function of usedPercent,
    the bands are strictly exclusive at their boundaries, and
    usedPercent = 90 scores 60, not 30. -/
theorem memory_score_bands :
    (∀ r : MemoryReading,
      (check_memory_health (.ok r)).2 = memScoreSpec r.percent) ∧
    (∀ p : ℚ,
      (memScoreSpec p = 30 ↔ 90 < p) ∧
      (memScoreSpec p = 60 ↔ 80 < p ∧ p ≤ 90) ∧
      (memScoreSpec p = 80 ↔ 70 < p ∧ p ≤ 80) ∧
      (memScoreSpec p = 95 ↔ p ≤ 70)) ∧
    memScore 90 = 60 ∧
    (check_memory_health
      (.ok { total := 16 * 1024 ^ 3, available := 8 * 1024 ^ 3,
             percent := 90 })).2 = 60 := by
  refine ⟨fun r => rfl, ?_, ?_, ?_⟩
  · intro p
    unfold memScoreSpec
    refine ⟨?_, ?_, ?_, ?_⟩ <;> split_ifs with h1 h2 h3 <;> norm_num <;>
      first
        | linarith
        | (intro hc; linarith)
        | (constructor <;> linarith)
  · norm_num [memScore]
  · show memScore 90 = 60
    norm_num [memScore]

/-- C3: for every present battery reading the scorer computes
    estimatedCycles = max(1, uptimeDays/2), the clamped score, remaining
    cycles and remaining years exactly as the spec formulas state; at
    uptimeDays = 100 this yields cycles 50, score 95, remaining cycles
    450, remaining years 2.5 (one decimal) and a LOW-risk prediction with
    remaining life "2.5 years". -/
theorem battery_scorer_formulas :
    (∀ (b : BatteryReading) (u : ℚ),
      (check_battery_health (.ok (some b)) u).2 = batteryScoreSpec u ∧
      (check_battery_health (.ok (some b)) u).1 =
        .data { percent := b.percent, plugged := b.plugged,
                estimated_cycles := ⌊batteryCyclesSpec u⌋,
                health_score := pyRound1 (batteryScoreSpec u),
                remaining_cycles := ⌊batteryRemCyclesSpec u⌋,
                estimated_remaining_years := pyRound1 (batteryRemYearsSpec u),
                secsleft := b.secsleft }) ∧
    check_battery_health (.ok (some ⟨80, false, none⟩)) 100 =
      (.data ⟨80, false, 50, 95, 450, 5/2, none⟩, 95) ∧
    batteryPredictions
        (some ((check_battery_health (.ok (some ⟨80, false, none⟩)) 100).1)) =
      [{ component := "Battery", current_age := "50 cycles",
         estimated_lifespan := "500-1000 cycles",
         remaining_life := "2.5 years", risk_level := .LOW }] := by
  have hconc : check_battery_health (.ok (some ⟨80, false, none⟩)) 100 =
      (.data ⟨80, false, 50, 95, 450, 5/2, none⟩, 95) := by
    unfold check_battery_health
    have hmax1 : max (1:ℚ) (100/2) = 50 := by norm_num [max_def]
    have hmax0 : max (0:ℚ) (min 100 (100 - 50/10)) = 95 := by
      norm_num [max_def, min_def]
    have hrc : max (0:ℚ) (500 - 50) = 450 := by norm_num [max_def]
    simp only [hmax1, hmax0, hrc]
    norm_num [pyRound1, pyRound]
  refine ⟨?_, hconc, ?_⟩
  · intro b u
    constructor
    · show max 0 (min 100 (100 - max 1 (u/2) / 10)) = batteryScoreSpec u
      unfold batteryScoreSpec batteryCyclesSpec
      exact clamp_swap _
    · show BatteryDiag.data _ = _
      simp only [batteryScoreSpec, batteryCyclesSpec, batteryRemCyclesSpec,
        batteryRemYearsSpec]
      rw [clamp_swap]
  · rw [congrArg Prod.fst hconc]
    have h25 : pyRound (10 * (5/2 : ℚ)) = 25 := by norm_num [pyRound]
    simp only [batteryPredictions, batteryRisk, fmt1, h25]
    norm_num
    decide

/-- C4: the storage age/lifespan heuristic is exactly the spec's function
    of capacity and the solid-state hint, with remainingYears =
    max(0, lifespan - age); the 1200 GB, 96%-used solid-state partition
    scores 20 with age 2, lifespan 8, remaining 6 years and a LOW-risk
    prediction. -/
theorem storage_age_lifespan_heuristic :
    (∀ (sizeGB : ℚ) (ssd : Bool),
      storageAgeLifespan sizeGB ssd =
        (storageAgeSpec sizeGB, storageLifespanSpec sizeGB ssd)) ∧
    (∀ p : PartitionReading,
      (mkStorageEntry p).estimated_age_years =
        storageAgeSpec (p.total / 1024 ^ 3) ∧
      (mkStorageEntry p).estimated_remaining_years =
        storageRemainingSpec (p.total / 1024 ^ 3) p.fstypeSSD) ∧
    check_storage_health (.ok [.ok scenario5Partition]) =
      (.data [{ device := "/dev/nvme0n1p1", mountpoint := "/",
                filesystem := "apfs", total_gb := 1200, used_percent := 96,
                health_score := 20, estimated_age_years := 2,
                estimated_remaining_years := 6, drive_type := "SSD" }],
       20) ∧
    storagePredictions
        (some ((check_storage_health (.ok [.ok scenario5Partition])).1)) =
      [{ component := "Storage (/dev/nvme0n1p1)", current_age := "2 years",
         estimated_lifespan := "8-10 years", remaining_life := "6.0 years",
         risk_level := .LOW }] := by
  have hentry : mkStorageEntry scenario5Partition =
      { device := "/dev/nvme0n1p1", mountpoint := "/", filesystem := "apfs",
        total_gb := 1200, used_percent := 96, health_score := 20,
        estimated_age_years := 2, estimated_remaining_years := 6,
        drive_type := "SSD" } := by
    unfold mkStorageEntry scenario5Partition storageAgeLifespan storageScore
    norm_num [pyRound2, pyRound, max_def]
  have hconc : check_storage_health (.ok [.ok scenario5Partition]) =
      (.data [{ device := "/dev/nvme0n1p1", mountpoint := "/",
                filesystem := "apfs", total_gb := 1200, used_percent := 96,
                health_score := 20, estimated_age_years := 2,
                estimated_remaining_years := 6, drive_type := "SSD" }],
       20) := by
    unfold check_storage_health partitionEntry
    simp only [List.filterMap, hentry]
    norm_num
  refine ⟨?_, ?_, hconc, ?_⟩
  · intro sizeGB ssd
    unfold storageAgeLifespan storageAgeSpec storageLifespanSpec
    split_ifs <;> rfl
  · intro p
    simp only [mkStorageEntry, storageAgeLifespan, storageRemainingSpec,
      storageAgeSpec, storageLifespanSpec]
    constructor <;> split_ifs <;> rfl
  · rw [congrArg Prod.fst hconc]
    have h60 : pyRound (10 * (6 : ℚ)) = 60 := by norm_num [pyRound]
    have h2 : (⌊(2:ℚ)⌋ : ℤ) = 2 := by norm_num
    simp only [storagePredictions, storageRisk, fmt1, fmtInt, h60, h2,
      List.map_cons, List.map_nil]
    norm_num
    decide

/-- C5 as stated is false on the code: a 70.0 °C reading is not in the
    ">70" band (strict threshold), so it scores 75, not 50, and the
    [70.0, 82.0] scenario's component score is 47.5, not 35. -/
theorem temperature_scenario_counterexample :
    tempScore 70 = 75 ∧ tempScore 70 ≠ 50 ∧
    (check_temperatures (.ok scenario4Sensors)).2 = 95/2 ∧
    (check_temperatures (.ok scenario4Sensors)).2 ≠ 35 := by
  have hts : tempScore 70 = 75 := by norm_num [tempScore]
  have hc : (check_temperatures (.ok scenario4Sensors)).2 = 95/2 := by
    unfold check_temperatures scenario4Sensors
    simp only [List.map_cons, List.map_nil]
    rw [if_neg (by simp)]
    norm_num [tempScore, List.sum_cons, List.sum_nil, List.length_cons,
      List.length_nil]
  refine ⟨hts, ?_, hc, ?_⟩
  · rw [hts]; norm_num
  · rw [hc]; norm_num

/-- C5 amended: the per-reading bands are >80→20, >70→50, >60→75,
    else→95 with strict thresholds, so the readings [70.0, 82.0] score
    [75, 20]; the component-level temperature score is their arithmetic
    mean 47.5, whose status band is POOR. -/
theorem temperature_scenario_amended :
    (∀ t : ℚ, tempScore t = tempScoreSpec t) ∧
    (check_temperatures (.ok scenario4Sensors)).1 =
      .data [{ key := "coretemp_core0", current := 70, high := none,
               critical := none, health_score := 75 },
             { key := "coretemp_core1", current := 82, high := none,
               critical := none, health_score := 20 }] ∧
    (check_temperatures (.ok scenario4Sensors)).2 = 95/2 ∧
    componentBand (95/2) = .POOR := by
  refine ⟨fun t => rfl, ?_, ?_, ?_⟩
  · unfold check_temperatures scenario4Sensors
    simp only [List.map_cons, List.map_nil]
    norm_num [tempScore]
    decide
  · unfold check_temperatures scenario4Sensors
    simp only [List.map_cons, List.map_nil]
    rw [if_neg (by simp)]
    norm_num [tempScore, List.sum_cons, List.sum_nil, List.length_cons,
      List.length_nil]
  · norm_num [componentBand]

/-- C6: the memory prediction risk is HIGH iff remainingYears < 1,
    MEDIUM iff 1 ≤ remainingYears < 3 and LOW otherwise; the per-device
    storage risk is HIGH iff < 1, MEDIUM iff 1 ≤ remainingYears < 2 and
    LOW otherwise; remainingYears = 1 is MEDIUM for both, and the
    prediction records carry exactly these risk functions. -/
theorem prediction_risk_thresholds :
    (∀ r : ℚ,
      (memoryRisk r = .HIGH ↔ r < 1) ∧
      (memoryRisk r = .MEDIUM ↔ 1 ≤ r ∧ r < 3) ∧
      (memoryRisk r = .LOW ↔ 3 ≤ r) ∧
      (storageRisk r = .HIGH ↔ r < 1) ∧
      (storageRisk r = .MEDIUM ↔ 1 ≤ r ∧ r < 2) ∧
      (storageRisk r = .LOW ↔ 2 ≤ r)) ∧
    memoryRisk 1 = .MEDIUM ∧ storageRisk 1 = .MEDIUM ∧
    (∀ md : MemoryData,
      (memoryPredictions (some (.data md))).map (·.risk_level) =
        [memoryRisk md.estimated_remaining_years]) ∧
    (∀ entries : List StorageEntry,
      (storagePredictions (some (.data entries))).map (·.risk_level) =
        entries.map fun e => storageRisk e.estimated_remaining_years) := by
  refine ⟨?_, ?_, ?_, fun md => rfl, ?_⟩
  · intro r
    unfold memoryRisk storageRisk
    refine ⟨?_, ?_, ?_, ?_, ?_, ?_⟩ <;> split_ifs with h1 h2 <;> simp_all <;>
      first
        | linarith
        | (intro hc; linarith)
        | (constructor <;> linarith)
  · norm_num [memoryRisk]
  · norm_num [storageRisk]
  · intro entries
    simp [storagePredictions, List.map_map]

/-- C7: every health score any of the five scorers can produce, fallback
    scores included, lies in [0, 100]. -/
theorem component_scores_in_range :
    ∀ (bi : Provided (Option BatteryReading)) (u : ℚ)
      (mi : Provided MemoryReading) (si : Provided (List PartAccess))
      (ti : Provided (List SensorReading)) (ci : Provided CpuReading),
      scoreInRange (check_battery_health bi u).2 ∧
      scoreInRange (check_memory_health mi).2 ∧
      scoreInRange (check_storage_health si).2 ∧
      scoreInRange (check_temperatures ti).2 ∧
      scoreInRange (check_performance ci).2 := by
  intro bi u mi si ti ci
  refine ⟨?_, ?_, ?_, ?_, ?_⟩
  · match bi with
    | .err => exact ⟨by norm_num [check_battery_health], by norm_num [check_battery_health]⟩
    | .ok none => exact ⟨by norm_num [check_battery_health], by norm_num [check_battery_health]⟩
    | .ok (some b) =>
      refine ⟨le_max_left 0 _, ?_⟩
      exact max_le (by norm_num) (min_le_left _ _)
  · match mi with
    | .err => exact ⟨by norm_num [check_memory_health], by norm_num [check_memory_health]⟩
    | .ok m => exact memScore_in_range m.percent
  · match si with
    | .err => exact ⟨by norm_num [check_storage_health], by norm_num [check_storage_health]⟩
    | .ok parts =>
      simp only [check_storage_health]
      split_ifs with he
      · exact ⟨by norm_num, by norm_num⟩
      · refine mean_in_range _ ?_ he
        intro x hx
        simp only [List.mem_map, List.mem_filterMap] at hx
        obtain ⟨e, ⟨pa, _, hpa⟩, hxe⟩ := hx
        match pa with
        | .denied => simp [partitionEntry] at hpa
        | .ok p =>
          simp only [partitionEntry, Option.some.injEq] at hpa
          subst hpa
          rw [← hxe]
          exact storageScore_in_range _
  · match ti with
    | .err => exact ⟨by norm_num [check_temperatures], by norm_num [check_temperatures]⟩
    | .ok sensors =>
      simp only [check_temperatures]
      split_ifs with he
      · exact ⟨by norm_num, by norm_num⟩
      · refine mean_in_range _ ?_ he
        intro x hx
        simp only [List.mem_map] at hx
        obtain ⟨e, ⟨s, _, hse⟩, hxe⟩ := hx
        rw [← hxe, ← hse]
        exact tempScore_in_range _
  · match ci with
    | .err => exact ⟨by norm_num [check_performance], by norm_num [check_performance]⟩
    | .ok c => exact perfScore_in_range c.percent

/-- C8: with no domain selected the engine yields no overall mean (an
    explicit no-data outcome, not zero) and an empty prediction list, as a
    total function that cannot fail. -/
theorem empty_selection_yields_no_data :
    ∀ (bi : Provided (Option BatteryReading)) (u : ℚ)
      (mi : Provided MemoryReading) (si : Provided (List PartAccess))
      (ti : Provided (List SensorReading)) (ci : Provided CpuReading),
      (run_diagnostics
        ⟨⟨false, false, false, false, false⟩, bi, u, mi, si, ti, ci⟩).overall
          = none ∧
      (run_diagnostics
        ⟨⟨false, false, false, false, false⟩, bi, u, mi, si, ti,
          ci⟩).predictions = [] := by
  intro bi u mi si ti ci
  constructor <;>
    simp [run_diagnostics, run_checks, overallHealth, HealthScores.toList,
      generate_predictions, batteryPredictions, memoryPredictions,
      storagePredictions]

/-- C9: an absent battery scores 100 and a failed battery reading scores
    50, and in both cases no Battery prediction record is produced; a
    Battery record exists exactly for a successfully obtained, present
    reading. -/
theorem battery_prediction_requires_presence :
    ∀ u : ℚ,
      (check_battery_health (.ok none) u).2 = 100 ∧
      (check_battery_health .err u).2 = 50 ∧
      batteryPredictions (some ((check_battery_health (.ok none) u).1)) = [] ∧
      batteryPredictions (some ((check_battery_health .err u).1)) = [] ∧
      ∀ b : BatteryReading, ∃ rec : PredictionRecord,
        batteryPredictions
            (some ((check_battery_health (.ok (some b)) u).1)) = [rec] ∧
        rec.component = "Battery" := by
  intro u
  exact ⟨rfl, rfl, rfl, rfl, fun b => ⟨_, rfl, rfl⟩⟩

/-- C10: a failed memory reading falls back to score 50 yet still yields a
    Memory prediction with age "0 years", remaining life "0.0 years" and
    risk HIGH, while a failed performance reading falls back to score 70. -/
theorem memory_error_fallback_prediction :
    (check_memory_health .err).2 = 50 ∧
    memoryPredictions (some ((check_memory_health .err).1)) =
      [{ component := "Memory (RAM)", current_age := "0 years",
         estimated_lifespan := "8-10 years", remaining_life := "0.0 years",
         risk_level := .HIGH }] ∧
    (check_performance .err).2 = 70 := by
  refine ⟨rfl, ?_, rfl⟩
  have h0 : pyRound (10 * (0:ℚ)) = 0 := by norm_num [pyRound]
  have hf : (⌊(0:ℚ)⌋ : ℤ) = 0 := by norm_num
  simp only [check_memory_health, memoryPredictions, memoryRisk, fmt1,
    fmtInt, h0, hf]
  norm_num
  decide

end PCDiag
